import Mathlib

/-!
Verification of the portrait-backend service against its specification.

The development shallowly embeds the JavaScript sources:
pure helpers become Lean functions; each HTTP handler becomes a function
from an explicit server state (plus the outcomes of external vendor calls,
which are passed in as parameters) to a response/state pair; JavaScript
strings are modelled as Lean strings at the level of characters.
-/

namespace Portrait

/-! ## JavaScript primitives -/

/-- JS `a || d` for an optional string value: `undefined`/`null` and the
empty string are falsy and select the default. -/
def jsOrStr (v : Option String) (d : String) : String :=
  match v with
  | some s => if s = "" then d else s
  | none => d

/-- Whitespace test used by JS `String.prototype.trim` (our strings only
contain spaces and newlines, where this agrees with `Char.isWhitespace`). -/
def wsChar (c : Char) : Bool := c.isWhitespace

/-- Right-trim of a character list: drop trailing characters satisfying `p`. -/
def rdrop (p : Char → Bool) (l : List Char) : List Char :=
  (l.reverse.dropWhile p).reverse

/-- JS `String.prototype.trim`: strip leading and trailing whitespace. -/
def jsTrim (s : String) : String :=
  ⟨rdrop wsChar (s.data.dropWhile wsChar)⟩

/-- Does `l` start with the pattern `pat`? -/
def startsSeq : List Char → List Char → Bool
  | [], _ => true
  | _ :: _, [] => false
  | a :: as, b :: bs => a = b && startsSeq as bs

/-- JS `String.prototype.includes`: does `l` contain `pat` as a contiguous
run? -/
def containsSeq (pat : List Char) : List Char → Bool
  | [] => startsSeq pat []
  | c :: t => startsSeq pat (c :: t) || containsSeq pat t

/-- `small` occurs verbatim as a contiguous substring of `big`. -/
def SubstrOf (small big : String) : Prop :=
  ∃ x y, x ++ small.data ++ y = big.data

/-! ## Style-ID parser (src/server.js lines 215-240, identical in
src/unnamed/part_000 lines 162-180) -/

structure ParsedStyle where
  style : String
  exaggeration : String
  background : String
deriving DecidableEq, Repr

/-- The `exaggerationMap` object of `parseStyleId`. -/
def exaggerationMap : List (String × String) :=
  [("A", "mild"), ("B", "medium"), ("C", "bold")]

/-- `parseStyleId` from src/server.js.  JS `!styleId` on a string is true
exactly for the empty string; `styleId.substring(0,3)` is `take 3` and
`styleId.substring(3,4)` is the fourth character. -/
def parseStyleId (styleId : String) : ParsedStyle :=
  if styleId = "" ∨ styleId.length ≤ 3 then
    { style := jsOrStr (some styleId) "S01"
      exaggeration := "medium"
      background := "BG01" }
  else
    { style := styleId.take 3
      exaggeration := (exaggerationMap.lookup ((styleId.drop 3).take 1)).getD "medium"
      background := "BG01" }

/-! ### Claims C6 and C7 -/

/-- Claim C6, counterexample: the claim states that every style id of
length at most 3, including the empty string, is returned verbatim as the
base style.  The code maps the empty string to the default style "S01",
not to "" verbatim. -/
theorem parseStyleId_empty_not_verbatim :
    parseStyleId "" = ⟨"S01", "medium", "BG01"⟩ ∧
      parseStyleId "" ≠ ⟨"", "medium", "BG01"⟩ := by
  constructor
  · rfl
  · decide

/-- Claim C6 (amended): for every nonempty style id of length at most 3,
`parseStyleId` returns that id verbatim as the base style together with
exaggeration "medium" and background "BG01"; the empty string instead
yields the default base style "S01" with the same defaults. -/
theorem parseStyleId_short (s : String) (hne : s ≠ "") (hlen : s.length ≤ 3) :
    parseStyleId s = ⟨s, "medium", "BG01"⟩ ∧
      parseStyleId "" = ⟨"S01", "medium", "BG01"⟩ := by
  constructor
  · unfold parseStyleId
    rw [if_pos (Or.inr hlen)]
    simp [jsOrStr, hne]
  · rfl

/-- Witness for `parseStyleId_short` at the concrete input "S2". -/
theorem parseStyleId_short_witness :
    parseStyleId "S2" = ⟨"S2", "medium", "BG01"⟩ ∧
      parseStyleId "" = ⟨"S01", "medium", "BG01"⟩ :=
  parseStyleId_short "S2" (by decide) (by decide)

/-- Claim C7: for every style id of length greater than 3, the parser
returns the first three characters as the base style, maps the fourth
character via A → mild, B → medium, C → bold with any other character
defaulting to medium, always uses background "BG01", and always produces
a usable tuple (the exaggeration is one of the three known tiers). -/
theorem parseStyleId_long (s : String) (hlen : 3 < s.length) :
    (parseStyleId s).style = s.take 3 ∧
    (parseStyleId s).background = "BG01" ∧
    ((s.drop 3).take 1 = "A" → (parseStyleId s).exaggeration = "mild") ∧
    ((s.drop 3).take 1 = "B" → (parseStyleId s).exaggeration = "medium") ∧
    ((s.drop 3).take 1 = "C" → (parseStyleId s).exaggeration = "bold") ∧
    ((s.drop 3).take 1 ≠ "A" → (s.drop 3).take 1 ≠ "B" → (s.drop 3).take 1 ≠ "C" →
      (parseStyleId s).exaggeration = "medium") ∧
    (parseStyleId s).exaggeration ∈ ["mild", "medium", "bold"] := by
  have hcond : ¬ (s = "" ∨ s.length ≤ 3) := by
    rintro (rfl | h)
    · simp at hlen
    · omega
  unfold parseStyleId
  rw [if_neg hcond]
  refine ⟨rfl, rfl, ?_, ?_, ?_, ?_, ?_⟩
  · intro h; rw [h]; rfl
  · intro h; rw [h]; rfl
  · intro h; rw [h]; rfl
  · intro hA hB hC
    have hA' : (((s.drop 3).take 1) == "A") = false := beq_eq_false_iff_ne.mpr hA
    have hB' : (((s.drop 3).take 1) == "B") = false := beq_eq_false_iff_ne.mpr hB
    have hC' : (((s.drop 3).take 1) == "C") = false := beq_eq_false_iff_ne.mpr hC
    simp [exaggerationMap, List.lookup, hA', hB', hC']
  · by_cases hA : (s.drop 3).take 1 = "A"
    · rw [hA]; simp [exaggerationMap, List.lookup]
    · by_cases hB : (s.drop 3).take 1 = "B"
      · rw [hB]; simp [exaggerationMap, List.lookup]
      · by_cases hC : (s.drop 3).take 1 = "C"
        · rw [hC]; simp [exaggerationMap, List.lookup]
        · have hA' : (((s.drop 3).take 1) == "A") = false := beq_eq_false_iff_ne.mpr hA
          have hB' : (((s.drop 3).take 1) == "B") = false := beq_eq_false_iff_ne.mpr hB
          have hC' : (((s.drop 3).take 1) == "C") = false := beq_eq_false_iff_ne.mpr hC
          simp [exaggerationMap, List.lookup, hA', hB', hC']

/-- Witness for `parseStyleId_long` at the concrete input "S07C"
(the spec example: base "S07", exaggeration "bold"). -/
theorem parseStyleId_long_witness :
    (parseStyleId "S07C").style = "S07C".take 3 ∧
    (parseStyleId "S07C").background = "BG01" ∧
    (("S07C".drop 3).take 1 = "A" → (parseStyleId "S07C").exaggeration = "mild") ∧
    (("S07C".drop 3).take 1 = "B" → (parseStyleId "S07C").exaggeration = "medium") ∧
    (("S07C".drop 3).take 1 = "C" → (parseStyleId "S07C").exaggeration = "bold") ∧
    (("S07C".drop 3).take 1 ≠ "A" → ("S07C".drop 3).take 1 ≠ "B" →
      ("S07C".drop 3).take 1 ≠ "C" → (parseStyleId "S07C").exaggeration = "medium") ∧
    (parseStyleId "S07C").exaggeration ∈ ["mild", "medium", "bold"] :=
  parseStyleId_long "S07C" (by decide)

/-! ## Retry wrapper (src/unnamed/part_000 lines 215-229) -/

/-- A thrown JS error value; `message` is optional (`err.message?`). -/
structure JsError where
  message : Option String
deriving DecidableEq, Repr

/-- `err.message?.includes('429')`: an absent message is falsy. -/
def is429 (e : JsError) : Bool :=
  match e.message with
  | some m => containsSeq ("429".data) m.data
  | none => false

/-- `Math.pow(2, attempt) * 5000` — the wait in milliseconds before the
retry that follows attempt number `attempt`. -/
def waitTime (attempt : Nat) : Nat := 2 ^ attempt * 5000

/-- The loop of `runWithRetry`.  `fn k` is the outcome of the k-th
invocation of the wrapped call; `remaining` counts the attempts still
allowed (so `remaining = 0` means `attempt > maxRetries` and the loop
exits), and `attempt < maxRetries` holds exactly when `remaining` is at
least 2.  The returned list records the waits performed, in order. -/
def retryGo (fn : Nat → Except JsError α) :
    Nat → Nat → List Nat → (Except JsError (Option α)) × List Nat
  | 0, _, delays => (Except.ok none, delays)
  | remaining + 1, attempt, delays =>
    match fn attempt with
    | Except.ok v => (Except.ok (some v), delays)
    | Except.error e =>
      if is429 e && remaining != 0 then
        retryGo fn remaining (attempt + 1) (delays ++ [waitTime attempt])
      else
        (Except.error e, delays)

/-- `runWithRetry(fn, maxRetries = 3)`: the first component is the
returned value (`none` models the `undefined` result of a loop that was
never entered), the second the list of waits performed. -/
def runWithRetry (fn : Nat → Except JsError α) (maxRetries : Nat) :
    (Except JsError (Option α)) × List Nat :=
  retryGo fn maxRetries 1 []

/-! ### Claim C1 -/

/-- Claim C1: with the default maximum of 3 attempts, a call that fails
with a rate-limit (429) error twice and then succeeds yields the third
invocation's value after waits of 10000 ms and 20000 ms — cumulatively at
least base + 2 × base for base = 5000 ms; a call that fails with a
non-rate-limit error propagates that error from the first invocation with
no delay; a call that always fails with 429 errors is retried only up to
the maximum attempt count, with the waits doubling each attempt (the k-th
wait being 2^k times the 5000 ms base). -/
theorem runWithRetry_spec {α : Type} :
    (∀ (fn : Nat → Except JsError α) (e₁ e₂ : JsError) (v : α),
      fn 1 = Except.error e₁ → is429 e₁ = true →
      fn 2 = Except.error e₂ → is429 e₂ = true →
      fn 3 = Except.ok v →
      runWithRetry fn 3 = (Except.ok (some v), [10000, 20000]) ∧
        5000 + 2 * 5000 ≤ (runWithRetry fn 3).2.sum) ∧
    (∀ (fn : Nat → Except JsError α) (e : JsError),
      fn 1 = Except.error e → is429 e = false →
      runWithRetry fn 3 = (Except.error e, [])) ∧
    (∀ (fn : Nat → Except JsError α) (err : Nat → JsError),
      (∀ k, fn k = Except.error (err k)) → (∀ k, is429 (err k) = true) →
      runWithRetry fn 3 = (Except.error (err 3), [waitTime 1, waitTime 2]) ∧
        waitTime 1 = 2 * 5000 ∧ ∀ k, waitTime (k + 1) = 2 * waitTime k) := by
  refine ⟨?_, ?_, ?_⟩
  · intro fn e₁ e₂ v h₁ h₁429 h₂ h₂429 h₃
    have : runWithRetry fn 3 = (Except.ok (some v), [10000, 20000]) := by
      simp [runWithRetry, retryGo, h₁, h₁429, h₂, h₂429, h₃, waitTime]
    refine ⟨this, ?_⟩
    rw [this]
    simp
  · intro fn e h₁ h429
    simp [runWithRetry, retryGo, h₁, h429]
  · intro fn err hfn h429
    refine ⟨?_, rfl, ?_⟩
    · simp [runWithRetry, retryGo, hfn 1, hfn 2, hfn 3, h429 1, h429 2, h429 3]
    · intro k
      simp [waitTime, pow_succ]
      ring

/-- Witness for `runWithRetry_spec`: a concrete call that returns a 429
error on its first two invocations and the value 7 on the third, a
concrete call that always fails with a plain error, and a concrete call
that always fails with a 429 error. -/
theorem runWithRetry_spec_witness :
    (runWithRetry (fun k => if k < 3 then Except.error ⟨some "HTTP 429 rate limit"⟩
        else Except.ok 7) 3 = (Except.ok (some 7), [10000, 20000]) ∧
      5000 + 2 * 5000 ≤ (runWithRetry (fun k => if k < 3 then
        Except.error ⟨some "HTTP 429 rate limit"⟩ else Except.ok (7 : Nat)) 3).2.sum) ∧
    runWithRetry (fun _ => (Except.error ⟨some "boom"⟩ : Except JsError Nat)) 3 =
      (Except.error ⟨some "boom"⟩, []) ∧
    runWithRetry (fun _ => (Except.error ⟨some "HTTP 429 rate limit"⟩ : Except JsError Nat)) 3 =
      (Except.error ⟨some "HTTP 429 rate limit"⟩, [waitTime 1, waitTime 2]) := by
  refine ⟨?_, ?_, ?_⟩
  · exact (runWithRetry_spec.1 (fun k => if k < 3 then
      Except.error ⟨some "HTTP 429 rate limit"⟩ else Except.ok 7)
      ⟨some "HTTP 429 rate limit"⟩ ⟨some "HTTP 429 rate limit"⟩ 7
      rfl rfl rfl rfl rfl)
  · exact runWithRetry_spec.2.1 (fun _ => Except.error ⟨some "boom"⟩) ⟨some "boom"⟩
      rfl rfl
  · exact (runWithRetry_spec.2.2 (fun _ => Except.error ⟨some "HTTP 429 rate limit"⟩)
      (fun _ => ⟨some "HTTP 429 rate limit"⟩) (fun _ => rfl) (fun _ => rfl)).1

/-! ## Memory-backed variant (src/unnamed/part_002)

The in-memory server keeps `const projects = {}` and registers exactly two
routes that touch it: project creation (which inserts an entry with status
"created") and upload-complete (which 404s on a missing id and otherwise
sets status "preview_ready").  No timer of any kind is registered — in
particular no periodic sweep — and no code path ever deletes an entry. -/

structure MemProj where
  style_id : Option String
  aspect : Option String
  status : String
deriving DecidableEq, Repr

/-- The in-memory server state: a wall clock in minutes plus the
`projects` map. -/
structure MemState where
  clock : Nat
  projects : List (String × MemProj)
deriving DecidableEq, Repr

/-- Response body of the memory variant's endpoints. -/
structure MemResp where
  code : Nat
  error : Option String
  project_id : Option String
  upload_url : Option String
  preview_url : Option String
deriving DecidableEq, Repr

/-- `POST /projects` of the memory variant: `projects[project_id] =
(style_id, aspect_ratio, status created)`. -/
def memCreate (st : MemState) (project_id : String)
    (style aspect : Option String) : MemResp × MemState :=
  ({ code := 200, error := none, project_id := some project_id
     upload_url := some "https://httpbin.org/put", preview_url := none },
   { st with projects := (project_id, ⟨style, aspect, "created"⟩) :: st.projects })

/-- `POST /projects/:id/upload-complete` of the memory variant. -/
def memUploadComplete (st : MemState) (id : String) : MemResp × MemState :=
  match st.projects.lookup id with
  | none =>
    ({ code := 404, error := some "Project not found", project_id := none
       upload_url := none, preview_url := none }, st)
  | some _ =>
    ({ code := 200, error := none, project_id := none, upload_url := none
       preview_url := some "https://picsum.photos/600/900" },
     { st with projects := (st.projects.map
        (fun q => if q.1 == id then (q.1, { q.2 with status := "preview_ready" }) else q)) })

/-- One minute of wall-clock time passing.  The memory variant registers
no `setInterval` and no other timer, so no callback runs: only the clock
advances. -/
def memTick (st : MemState) : MemState := { st with clock := st.clock + 1 }

/-- `n` minutes of wall-clock time passing. -/
def memTicks : Nat → MemState → MemState
  | 0, st => st
  | n + 1, st => memTicks n (memTick st)

/-- Lookup of a project in the memory map (`projects[id]`). -/
def memLookup (st : MemState) (id : String) : Option MemProj :=
  st.projects.lookup id

theorem memTicks_projects (n : Nat) (st : MemState) :
    (memTicks n st).projects = st.projects := by
  induction n generalizing st with
  | zero => rfl
  | succ n ih => simpa [memTicks, memTick] using ih _

/-! ### Claim C2 -/

/-- Claim C2, counterexample: the claim states that, the max age being 30
minutes, a project created at time T is absent from lookup at T+31
minutes after a sweep has run.  The memory variant registers no sweep and
never deletes entries: a concrete project created at minute 0 is still
present at minute 31. -/
theorem memNoEviction_counterexample :
    ¬ memLookup (memTicks 31 (memCreate ⟨0, []⟩ "p1" (some "S01") (some "2:3")).2) "p1"
      = none := by
  decide

/-- Claim C2 (amended): the memory-backed variant has no periodic sweep
and performs no eviction at all.  A project created at time T is present
at lookup at T+10 minutes and is still present at T+31 minutes — indeed
after any number of minutes — with its record unchanged. -/
theorem memNoEviction (st : MemState) (id : String)
    (style aspect : Option String) (n : Nat) :
    memLookup (memTicks n (memCreate st id style aspect).2) id
      = some ⟨style, aspect, "created"⟩ := by
  rw [memLookup, memTicks_projects]
  simp [memCreate, List.lookup]

/-! ## Dynamic prompt store (src/unnamed/part_000 lines 63-132)

`loadPrompts` queries four database tables in sequence and mutates the
process-wide `promptCache` object table-by-table.  Each Supabase query is
destructured as `const (data) = await ...`: a database-level error is not
thrown but yields `data = null` (modelled `Except.ok none`), while a
thrown exception during the `await` (modelled `Except.error ()`) jumps to
the `catch` block, which logs and returns `false`.  On a null `data` the
code still executes `promptCache.<table> = ...` with an empty object
(the `data?.forEach` inserts nothing). -/

structure StyleEntry where
  name : String
  prompt : String
  model : String
  modelParams : List (String × String)
deriving DecidableEq, Repr

structure PromptEntry where
  name : String
  prompt : String
deriving DecidableEq, Repr

/-- The process-wide `promptCache` object. -/
structure PromptCache where
  styles : List (String × StyleEntry)
  exaggeration : List (String × PromptEntry)
  backgrounds : List (String × PromptEntry)
  config : List (String × String)
  lastLoaded : Option Nat
deriving DecidableEq, Repr

structure StyleRow where
  id : String
  name : String
  prompt : String
  model : Option String
  modelParams : Option (List (String × String))
deriving DecidableEq, Repr

structure PromptRow where
  id : String
  name : String
  prompt : String
deriving DecidableEq, Repr

structure ConfigRow where
  key : String
  value : String
deriving DecidableEq, Repr

/-- The outcome of one `await supabase...select...` query: a thrown
exception, or a returned `data` that is either `null` (database error) or
a list of rows. -/
abbrev QueryOutcome (ρ : Type) := Except Unit (Option (List ρ))

/-- The outcomes of the four queries `loadPrompts` issues, in program
order. -/
structure DbResults where
  styles : QueryOutcome StyleRow
  exaggeration : QueryOutcome PromptRow
  backgrounds : QueryOutcome PromptRow
  config : QueryOutcome ConfigRow

/-- `styles?.forEach(s => promptCache.styles[s.id] = ...)` with the
defaults `s.model || "photomaker-style"` and `s.model_params || ` empty. -/
def stylesFromRows (rows : List StyleRow) : List (String × StyleEntry) :=
  rows.map (fun s => (s.id, ⟨s.name, s.prompt, s.model.getD "photomaker-style",
    s.modelParams.getD []⟩))

def entriesFromRows (rows : List PromptRow) : List (String × PromptEntry) :=
  rows.map (fun e => (e.id, ⟨e.name, e.prompt⟩))

def configFromRows (rows : List ConfigRow) : List (String × String) :=
  rows.map (fun c => (c.key, c.value))

/-- `loadPrompts` from src/unnamed/part_000: the boolean is its return
value, the cache is the state of `promptCache` after the call.  A thrown
query leaves the tables mutated so far in place and returns `false`; null
data clears the corresponding table. -/
def loadPrompts (cache : PromptCache) (db : DbResults) (now : Nat) :
    Bool × PromptCache :=
  match db.styles with
  | Except.error _ => (false, cache)
  | Except.ok sdata =>
    let c1 := { cache with styles := stylesFromRows (sdata.getD []) }
    match db.exaggeration with
    | Except.error _ => (false, c1)
    | Except.ok edata =>
      let c2 := { c1 with exaggeration := entriesFromRows (edata.getD []) }
      match db.backgrounds with
      | Except.error _ => (false, c2)
      | Except.ok bdata =>
        let c3 := { c2 with backgrounds := entriesFromRows (bdata.getD []) }
        match db.config with
        | Except.error _ => (false, c3)
        | Except.ok cdata =>
          let c4 := { c3 with config := configFromRows (cdata.getD []) }
          (true, { c4 with lastLoaded := some now })

/-! ### Claim C3 -/

/-- A concrete previously loaded cache. -/
def cacheC3 : PromptCache :=
  { styles := [("S01", ⟨"Classic", "street caricature", "photomaker-style", []⟩)]
    exaggeration := [("medium", ⟨"Medium", "head 140 percent"⟩)]
    backgrounds := [("BG01", ⟨"Sky", "soft sky blue gradient"⟩)]
    config := [("identity_lock", "preserve identity")]
    lastLoaded := some 100 }

/-- Claim C3, counterexample: the claim states that a failed reload
(database error or thrown exception) leaves the previously loaded cache
contents intact and is reported via logs only.  A reload in which every
query reports a database error (null data, nothing thrown) clears all
four tables — in particular the styles table, previously nonempty,
becomes empty — and `loadPrompts` even reports success. -/
theorem loadPrompts_dbError_clears :
    (loadPrompts cacheC3
        ⟨Except.ok none, Except.ok none, Except.ok none, Except.ok none⟩ 200).1 = true ∧
    (loadPrompts cacheC3
        ⟨Except.ok none, Except.ok none, Except.ok none, Except.ok none⟩ 200).2.styles = [] ∧
    cacheC3.styles ≠ [] := by
  refine ⟨rfl, rfl, ?_⟩
  decide

/-- Claim C3 (amended): only a reload that throws on its very first query
leaves the previously loaded cache contents intact, the failure being
reported via the logged boolean return only.  A reload whose queries
report database errors (null data) does not preserve the cache: it clears
every table, stamps the load time, and reports success; and a reload that
throws after the styles query has been processed leaves a partially
updated cache — the styles table overwritten, the other tables at their
previous values. -/
theorem loadPrompts_failure_behaviour :
    (∀ (cache : PromptCache) (db : DbResults) (now : Nat),
      db.styles = Except.error () →
      loadPrompts cache db now = (false, cache)) ∧
    (∀ (cache : PromptCache) (now : Nat),
      loadPrompts cache ⟨Except.ok none, Except.ok none, Except.ok none, Except.ok none⟩ now
        = (true, ⟨[], [], [], [], some now⟩)) ∧
    (∀ (cache : PromptCache) (rows : List StyleRow) (now : Nat),
      loadPrompts cache ⟨Except.ok (some rows), Except.error (), Except.ok none,
          Except.ok none⟩ now
        = (false, { cache with styles := stylesFromRows rows })) := by
  refine ⟨?_, ?_, ?_⟩
  · intro cache db now h
    simp [loadPrompts, h]
  · intro cache now
    rfl
  · intro cache rows now
    rfl

/-- Witness for `loadPrompts_failure_behaviour` at concrete inputs. -/
theorem loadPrompts_failure_behaviour_witness :
    loadPrompts cacheC3
        ⟨Except.error (), Except.ok none, Except.ok none, Except.ok none⟩ 200
      = (false, cacheC3) :=
  loadPrompts_failure_behaviour.1 cacheC3
    ⟨Except.error (), Except.ok none, Except.ok none, Except.ok none⟩ 200 rfl

/-! ## Supabase-backed server endpoints (src/server.js lines 334-472)

The server state consists of the `projects` database table and the two
storage buckets.  External effects that can fail (the database insert,
the storage uploads, the generation pipeline) are passed in as outcome
parameters; storage contents are association lists keyed by path. -/

/-- Raw request/file bytes. -/
abbrev Bytes := List Nat

/-- A row of the `projects` table.  (`aspect` models the `aspect_ratio`
column.) -/
structure ProjRec where
  style_id : String
  exaggeration : String
  background : String
  aspect : String
  filename : Option String
  mime_type : Option String
  status : String
  preview_url : Option String
deriving DecidableEq, Repr

structure SrvState where
  projects : List (String × ProjRec)
  uploads : List (String × Bytes)
  previews : List (String × Bytes)
deriving DecidableEq, Repr

/-- A JSON HTTP response (only the fields the handlers emit). -/
structure ApiResp where
  code : Nat
  error : Option String
  ok : Option Bool
  project_id : Option String
  upload_url : Option String
  preview_url : Option String
deriving DecidableEq, Repr

def resp500 (msg : String) : ApiResp :=
  { code := 500, error := some msg, ok := none, project_id := none
    upload_url := none, preview_url := none }

def resp400 (msg : String) : ApiResp :=
  { code := 400, error := some msg, ok := none, project_id := none
    upload_url := none, preview_url := none }

/-- Supabase `storage.upload(..., upsert: true)`: replace any object at
the same path. -/
def upsertStore (l : List (String × Bytes)) (path : String) (b : Bytes) :
    List (String × Bytes) :=
  (path, b) :: l.filter (fun q => !(q.1 == path))

/-- Supabase `.update(...).eq("id", id)`: apply `f` to every row whose id
matches. -/
def updateWhere (l : List (String × ProjRec)) (id : String) (f : ProjRec → ProjRec) :
    List (String × ProjRec) :=
  l.map (fun q => cond (q.1 == id) (q.1, f q.2) q)

theorem lookup_upsertStore (l : List (String × Bytes)) (path : String) (b : Bytes) :
    (upsertStore l path b).lookup path = some b := by
  simp [upsertStore, List.lookup]

theorem lookup_updateWhere (l : List (String × ProjRec)) (id : String)
    (f : ProjRec → ProjRec) :
    (updateWhere l id f).lookup id = (l.lookup id).map f := by
  induction l with
  | nil => rfl
  | cons q t ih =>
    rcases q with ⟨k, v⟩
    by_cases h : k = id
    · subst h
      simp [updateWhere, List.lookup, beq_self_eq_true]
    · have h1 : (k == id) = false := beq_eq_false_iff_ne.mpr h
      have h2 : (id == k) = false := beq_eq_false_iff_ne.mpr (Ne.symm h)
      simpa [updateWhere, List.lookup, h1, h2] using ih

theorem updateWhere_of_lookup_none (l : List (String × ProjRec)) (id : String)
    (f : ProjRec → ProjRec) (h : l.lookup id = none) :
    updateWhere l id f = l := by
  induction l with
  | nil => rfl
  | cons q t ih =>
    rcases q with ⟨k, v⟩
    simp only [List.lookup] at h
    by_cases hq : id = k
    · subst hq
      rw [beq_self_eq_true] at h
      simp at h
    · have h2 : (id == k) = false := beq_eq_false_iff_ne.mpr hq
      rw [h2] at h
      have h1 : (k == id) = false := beq_eq_false_iff_ne.mpr (Ne.symm hq)
      have ht := ih h
      simp only [updateWhere, List.map_cons, h1, cond_false] at ht ⊢
      rw [ht]

/-- Request body of `POST /projects`. -/
structure CreateBody where
  style_id : Option String
  exaggeration : Option String
  background : Option String
  aspect : Option String
  filename : Option String
  mime_type : Option String
deriving DecidableEq, Repr

/-- `POST /projects` (src/server.js lines 334-366).  `project_id` is the
freshly generated UUID, `dbInsertErr` whether the database insert
reported an error (which the handler only logs), `proto`/`host` the
request's forwarding headers. -/
def postProjects (st : SrvState) (body : CreateBody) (project_id : String)
    (dbInsertErr : Bool) (proto host : String) : ApiResp × SrvState :=
  let newRec : ProjRec :=
    { style_id := jsOrStr body.style_id "S01"
      exaggeration := jsOrStr body.exaggeration "medium"
      background := jsOrStr body.background "BG01"
      aspect := jsOrStr body.aspect "2:3"
      filename := body.filename
      mime_type := body.mime_type
      status := "created"
      preview_url := none }
  let st1 := if dbInsertErr then st
    else { st with projects := st.projects ++ [(project_id, newRec)] }
  let upload_url := proto ++ "://" ++ host ++ "/projects/" ++ project_id ++ "/upload"
  ({ code := 200, error := none, ok := none, project_id := some project_id
     upload_url := some upload_url, preview_url := none }, st1)

/-- `PUT /projects/:id/upload` (src/server.js lines 371-403).  `body` is
the raw request body (`none` models a missing body), `storageErr` whether
the storage upload reported an error. -/
def putUpload (st : SrvState) (id : String) (body : Option Bytes)
    (storageErr : Bool) : ApiResp × SrvState :=
  match body with
  | none => (resp400 "No file data received", st)
  | some b =>
    if b.length = 0 then (resp400 "No file data received", st)
    else if storageErr then (resp500 "Failed to store image", st)
    else
      let st1 := { st with
        uploads := (upsertStore st.uploads (id ++ "/original.jpg") b),
        projects := (updateWhere st.projects id (fun p => { p with status := "uploaded" })) }
      ({ code := 200, error := none, ok := some true, project_id := none
         upload_url := none, preview_url := none }, st1)

/-- Claim C9: `POST /projects` always responds 200 with the freshly
generated project id and an upload URL, even when the database insert of
the project record fails; the insert error is only logged, the response
does not depend on it, and on an insert error the state is unchanged —
project creation never fails due to a database error. -/
theorem postProjects_always_succeeds (st : SrvState) (body : CreateBody)
    (project_id : String) (dbInsertErr : Bool) (proto host : String) :
    (postProjects st body project_id dbInsertErr proto host).1.code = 200 ∧
    (postProjects st body project_id dbInsertErr proto host).1.project_id
      = some project_id ∧
    (postProjects st body project_id dbInsertErr proto host).1.upload_url
      = some (proto ++ "://" ++ host ++ "/projects/" ++ project_id ++ "/upload") ∧
    (postProjects st body project_id dbInsertErr proto host).1.error = none ∧
    (postProjects st body project_id true proto host).1
      = (postProjects st body project_id false proto host).1 ∧
    (postProjects st body project_id true proto host).2 = st := by
  refine ⟨rfl, rfl, rfl, rfl, rfl, ?_⟩
  simp [postProjects]

/-! ### Claim C5 -/

/-- Claim C5: `PUT /projects/:id/upload` rejects an absent or zero-length
body with HTTP 400, leaving the state (status and stored data) unchanged;
a non-empty body is stored under the project id and, for an existing
project record, transitions its status to "uploaded" with a 200
response. -/
theorem putUpload_spec (st : SrvState) (id : String) (b : Bytes) (p : ProjRec)
    (storageErr : Bool) :
    (putUpload st id none storageErr = (resp400 "No file data received", st)) ∧
    (putUpload st id (some []) storageErr = (resp400 "No file data received", st)) ∧
    (b ≠ [] → st.projects.lookup id = some p →
      (putUpload st id (some b) false).1.code = 200 ∧
      (putUpload st id (some b) false).1.ok = some true ∧
      (putUpload st id (some b) false).2.uploads.lookup (id ++ "/original.jpg")
        = some b ∧
      (putUpload st id (some b) false).2.projects.lookup id
        = some { p with status := "uploaded" }) := by
  refine ⟨rfl, rfl, ?_⟩
  intro hb hp
  have hlen : ¬ (b.length = 0) := by simpa using hb
  refine ⟨?_, ?_, ?_, ?_⟩
  · simp [putUpload, hlen]
  · simp [putUpload, hlen]
  · simp [putUpload, hlen, lookup_upsertStore]
  · simp [putUpload, hlen, lookup_updateWhere, hp]

/-- Witness for `putUpload_spec` at a concrete state holding one project
in status "created" and the concrete body bytes `[7, 7]`. -/
theorem putUpload_spec_witness :
    (putUpload ⟨[("p1", ⟨"S01", "medium", "BG01", "2:3", none, none, "created", none⟩)],
        [], []⟩ "p1" none false
      = (resp400 "No file data received",
        ⟨[("p1", ⟨"S01", "medium", "BG01", "2:3", none, none, "created", none⟩)],
        [], []⟩)) ∧
    (putUpload ⟨[("p1", ⟨"S01", "medium", "BG01", "2:3", none, none, "created", none⟩)],
        [], []⟩ "p1" (some []) false
      = (resp400 "No file data received",
        ⟨[("p1", ⟨"S01", "medium", "BG01", "2:3", none, none, "created", none⟩)],
        [], []⟩)) ∧
    ((putUpload ⟨[("p1", ⟨"S01", "medium", "BG01", "2:3", none, none, "created", none⟩)],
        [], []⟩ "p1" (some [7, 7]) false).1.code = 200 ∧
      (putUpload ⟨[("p1", ⟨"S01", "medium", "BG01", "2:3", none, none, "created", none⟩)],
        [], []⟩ "p1" (some [7, 7]) false).1.ok = some true ∧
      (putUpload ⟨[("p1", ⟨"S01", "medium", "BG01", "2:3", none, none, "created", none⟩)],
        [], []⟩ "p1" (some [7, 7]) false).2.uploads.lookup ("p1" ++ "/original.jpg")
        = some [7, 7] ∧
      (putUpload ⟨[("p1", ⟨"S01", "medium", "BG01", "2:3", none, none, "created", none⟩)],
        [], []⟩ "p1" (some [7, 7]) false).2.projects.lookup "p1"
        = some { (⟨"S01", "medium", "BG01", "2:3", none, none, "created", none⟩ : ProjRec)
            with status := "uploaded" }) := by
  refine ⟨?_, ?_, ?_⟩
  · exact (putUpload_spec ⟨[("p1", ⟨"S01", "medium", "BG01", "2:3", none, none,
      "created", none⟩)], [], []⟩ "p1" [7, 7]
      ⟨"S01", "medium", "BG01", "2:3", none, none, "created", none⟩ false).1
  · exact (putUpload_spec ⟨[("p1", ⟨"S01", "medium", "BG01", "2:3", none, none,
      "created", none⟩)], [], []⟩ "p1" [7, 7]
      ⟨"S01", "medium", "BG01", "2:3", none, none, "created", none⟩ false).2.1
  · exact (putUpload_spec ⟨[("p1", ⟨"S01", "medium", "BG01", "2:3", none, none,
      "created", none⟩)], [], []⟩ "p1" [7, 7]
      ⟨"S01", "medium", "BG01", "2:3", none, none, "created", none⟩ false).2.2
      (by decide) rfl

/-! ### Claim C10 -/

/-- Claim C10: `PUT /projects/:id/upload` never returns 404; for a
project id with no project record, a non-empty body is still stored
under that id, the endpoint responds 200 with ok, and the projects table
is untouched (the status update matches no row). -/
theorem putUpload_never_404 (st : SrvState) (id : String) (body : Option Bytes)
    (storageErr : Bool) (b : Bytes) :
    ((putUpload st id body storageErr).1.code ≠ 404) ∧
    (b ≠ [] → st.projects.lookup id = none →
      (putUpload st id (some b) false).1
        = ⟨200, none, some true, none, none, none⟩ ∧
      (putUpload st id (some b) false).2.uploads.lookup (id ++ "/original.jpg")
        = some b ∧
      (putUpload st id (some b) false).2.projects = st.projects) := by
  constructor
  · rcases body with _ | b'
    · simp [putUpload, resp400]
    · by_cases hl : b'.length = 0
      · simp [putUpload, hl, resp400]
      · by_cases hs : storageErr
        · simp [putUpload, hl, hs, resp500]
        · simp [putUpload, hl, hs]
  · intro hb hnone
    have hlen : ¬ (b.length = 0) := by simpa using hb
    refine ⟨?_, ?_, ?_⟩
    · simp [putUpload, hlen]
    · simp [putUpload, hlen, lookup_upsertStore]
    · simp [putUpload, hlen, updateWhere_of_lookup_none _ _ _ hnone]

/-- Witness for `putUpload_never_404`: a state with no project records at
all, id "ghost", body bytes `[1]`. -/
theorem putUpload_never_404_witness :
    ((putUpload ⟨[], [], []⟩ "ghost" (some [1]) false).1.code ≠ 404) ∧
    ((putUpload ⟨[], [], []⟩ "ghost" (some [1]) false).1
      = ⟨200, none, some true, none, none, none⟩ ∧
    (putUpload ⟨[], [], []⟩ "ghost" (some [1]) false).2.uploads.lookup
      ("ghost" ++ "/original.jpg") = some [1] ∧
    (putUpload ⟨[], [], []⟩ "ghost" (some [1]) false).2.projects = ([] : List (String × ProjRec))) :=
  ⟨(putUpload_never_404 ⟨[], [], []⟩ "ghost" (some [1]) false [1]).1,
   (putUpload_never_404 ⟨[], [], []⟩ "ghost" (some [1]) false [1]).2 (by decide) rfl⟩

/-! ### Claim C4 -/

theorem dropWhile_append_left (p : Char → Bool) (l₁ l₂ : List Char)
    (h : l₁.dropWhile p ≠ []) :
    (l₁ ++ l₂).dropWhile p = l₁.dropWhile p ++ l₂ := by
  induction l₁ with
  | nil => exact absurd rfl h
  | cons a t ih =>
    by_cases hp : p a
    · rw [List.dropWhile_cons_of_pos hp] at h
      rw [List.cons_append, List.dropWhile_cons_of_pos hp,
        List.dropWhile_cons_of_pos hp, ih h]
    · rw [List.cons_append, List.dropWhile_cons_of_neg hp,
        List.dropWhile_cons_of_neg hp, List.cons_append]

theorem rdrop_append_right (p : Char → Bool) (l₁ l₂ : List Char)
    (h : rdrop p l₂ ≠ []) :
    rdrop p (l₁ ++ l₂) = l₁ ++ rdrop p l₂ := by
  have hne : l₂.reverse.dropWhile p ≠ [] := by
    intro hc
    apply h
    rw [rdrop, hc, List.reverse_nil]
  rw [rdrop, List.reverse_append, dropWhile_append_left p _ _ hne,
    List.reverse_append, List.reverse_reverse, rdrop]

theorem dropWhile_ne_nil_of_mem (p : Char → Bool) (l : List Char) (c : Char)
    (hc : c ∈ l) (hp : p c = false) : l.dropWhile p ≠ [] := by
  intro h
  rw [List.dropWhile_eq_nil_iff] at h
  rw [h c hc] at hp
  exact Bool.true_eq_false.mp hp

theorem rdrop_ne_nil_of_mem (p : Char → Bool) (l : List Char) (c : Char)
    (hc : c ∈ l) (hp : p c = false) : rdrop p l ≠ [] := by
  intro h
  have h2 : l.reverse.dropWhile p = [] := by
    have h3 := congrArg List.reverse h
    rw [rdrop, List.reverse_reverse, List.reverse_nil] at h3
    exact h3
  rw [List.dropWhile_eq_nil_iff] at h2
  rw [h2 c (List.mem_reverse.mpr hc)] at hp
  exact Bool.true_eq_false.mp hp

theorem strData_append (s t : String) : (s ++ t).data = s.data ++ t.data := rfl

/-- If `t` decomposes as `a ++ s ++ b` with non-whitespace material in
both `a` and `b`, then `s` is a verbatim substring of `jsTrim t`. -/
theorem substrOf_jsTrim (t s : String) (a b : List Char)
    (ht : t.data = a ++ (s.data ++ b))
    (ha : a.dropWhile wsChar ≠ [])
    (hb : rdrop wsChar b ≠ []) :
    SubstrOf s (jsTrim t) := by
  refine ⟨a.dropWhile wsChar, rdrop wsChar b, ?_⟩
  have hq : (jsTrim t).data = rdrop wsChar (t.data.dropWhile wsChar) := rfl
  rw [hq, ht, dropWhile_append_left _ _ _ ha, ← List.append_assoc,
    rdrop_append_right _ _ _ hb, List.append_assoc]

/-! ## Static prompt system (src/server.js lines 48-211)

The constants below transcribe the template literals of the source; a
leading or trailing newline in a backtick literal is an explicit "\n"
here.  The prompt template of `buildPrompt` is the concatenation of the
fixed segments with the three resolved blocks, then trimmed. -/

def IDENTITY_LOCK : String :=
  "\nUse the reference image as the primary identity source.\nPreserve:\n- Exact facial structure\n- Eye shape and spacing\n- Nose base structure\n- Lip shape\n- Hairline and hairstyle\n- Skin tone\n- Ethnicity\n- Facial hair details\n- Expression essence\nExaggerate features but do NOT change identity.\nThe person must remain immediately recognisable.\n"

def exagMildText : String :=
  "\nMild exaggeration level.\nEnlarge head slightly (120-130%).\nSubtle exaggeration of most distinctive feature.\nKeep proportions mostly natural.\n"

def exagMediumText : String :=
  "\nMedium exaggeration level.\nHead 140-150%.\nEmphasise defining traits.\nWiden smile.\nSlightly enlarge eyes.\nIncrease nose length or width if distinctive.\n"

def exagBoldText : String :=
  "\nBold exaggeration level.\nHead 160%.\nPush facial contrast.\nStrong mouth exaggeration.\nElongated nose or jawline if appropriate.\nMore animated expression.\nStill recognisable, not grotesque.\n"

/-- The `EXAGGERATION_LEVELS` object. -/
def EXAGGERATION_LEVELS : List (String × String) :=
  [("mild", exagMildText), ("medium", exagMediumText), ("bold", exagBoldText)]

structure StyleDef where
  name : String
  prompt : String
deriving DecidableEq, Repr

def styleS01 : StyleDef :=
  { name := "Classic Street Caricature"
    prompt := "\nProfessional street caricature illustration.\nThick confident black linework.\nSmooth airbrushed shading.\nVibrant carnival colour palette.\nPlayful exaggerated expression.\nDigital painting, semi-realistic shading.\nClean white highlight accents.\n" }

def styleS02 : StyleDef :=
  { name := "Premium Gallery Caricature"
    prompt := "\nHigh-end painterly caricature portrait.\nVisible brush texture.\nSoft blended shading.\nMuted but rich colour palette.\nStudio lighting.\nCaricature exaggeration with refined realism.\nSubtle texture overlay.\nElegant artistic finish.\n" }

def styleS03 : StyleDef :=
  { name := "Bold Comic Line Caricature"
    prompt := "\nHigh-contrast comic-style caricature.\nThick bold outlines.\nSharp shadows.\nSlight halftone texture.\nBright saturated colours.\nDynamic expression.\nGraphic poster-like finish.\n" }

def styleS04 : StyleDef :=
  { name := "Soft Digital Cartoon"
    prompt := "\nSoft digital cartoon caricature.\nRounded lines.\nGentle shading.\nPastel colour palette.\nWarm cheerful expression.\nSmooth gradients.\nFamily-friendly style.\n" }

def styleS05 : StyleDef :=
  { name := "Ultra Airbrush Hyper Caricature"
    prompt := "\nHighly exaggerated airbrush caricature.\nGlossy skin highlights.\nHigh saturation.\nExtreme smile enhancement.\nDramatic lighting.\nLarge expressive eyes.\nUltra-clean finish.\n" }

/-- The `STYLES` object. -/
def STYLES : List (String × StyleDef) :=
  [("S01", styleS01), ("S02", styleS02), ("S03", styleS03),
   ("S04", styleS04), ("S05", styleS05)]

def BG01_TEXT : String := "Soft sky blue gradient background, subtle vignette."

/-- The `BACKGROUNDS` object. -/
def BACKGROUNDS : List (String × String) :=
  [("BG01", BG01_TEXT),
   ("BG02", "Warm peach to light orange gradient background."),
   ("BG03", "Pure white background, studio look."),
   ("BG04", "Soft blurred fairground background, shallow depth of field."),
   ("BG05", "Neutral beige studio gradient.")]

def TECHNICAL_BLOCK : String :=
  "\nHigh resolution.\nUltra clean linework.\nSmooth colour blending.\nPrint-ready quality.\nProfessional finish.\nMaintain likeness accuracy.\n"

def NEGATIVE_PROMPT : String :=
  "\ndistorted beyond recognition, generic cartoon, anime style, pixar style,\n3D render, photorealistic, blurry, low quality, bad anatomy,\ndeformed face, extra limbs, watermark, signature, text\n"

/-- Fixed segments of the `fullPrompt` template literal, in order. -/
def hdrSeg : String :=
  "\nTransform the reference image into a professional caricature illustration.\n\nIDENTITY REQUIREMENTS:\n"

def exagSeg : String := "\n\nEXAGGERATION:\n"

def styleSeg : String := "\n\nSTYLE:\n"

def bgSeg : String := "\n\nBACKGROUND:\n"

def techSeg : String := "\n\nTECHNICAL:\n"

def endSeg : String := "\n"

/-- The `fullPrompt` template literal before the `.trim()` call. -/
def rawPrompt (styleP exagP bgP : String) : String :=
  hdrSeg ++ IDENTITY_LOCK ++ exagSeg ++ exagP ++ styleSeg ++ styleP ++ bgSeg ++ bgP
    ++ techSeg ++ TECHNICAL_BLOCK ++ endSeg

structure PromptResult where
  prompt : String
  negative_prompt : String
deriving DecidableEq, Repr

/-- `buildPrompt` from src/server.js: resolve the three blocks with their
fallbacks (`STYLES[styleId] || STYLES.S01` and so on), fill the template,
trim. -/
def buildPrompt (styleId exaggeration background : String) : PromptResult :=
  let style := (STYLES.lookup styleId).getD styleS01
  let exaggerationBlock := (EXAGGERATION_LEVELS.lookup exaggeration).getD exagMediumText
  let backgroundBlock := (BACKGROUNDS.lookup background).getD BG01_TEXT
  let fullPrompt := jsTrim (rawPrompt style.prompt exaggerationBlock backgroundBlock)
  { prompt := fullPrompt, negative_prompt := NEGATIVE_PROMPT }

/-! ### Claim C8 -/

/-- Both interpolated blocks survive the trim: the style text and the
background text sit strictly inside `rawPrompt`, flanked by the fixed
non-whitespace segments. -/
theorem rawPrompt_substrs (styleP exagP bgP : String) :
    SubstrOf styleP (jsTrim (rawPrompt styleP exagP bgP)) ∧
    SubstrOf bgP (jsTrim (rawPrompt styleP exagP bgP)) := by
  constructor
  · apply substrOf_jsTrim _ _
      (hdrSeg.data ++ (IDENTITY_LOCK.data ++ (exagSeg.data ++ (exagP.data ++ styleSeg.data))))
      (bgSeg.data ++ (bgP.data ++ (techSeg.data ++ (TECHNICAL_BLOCK.data ++ endSeg.data))))
    · simp [rawPrompt, strData_append, List.append_assoc]
    · apply dropWhile_ne_nil_of_mem _ _ 'T'
      · exact List.mem_append_left _ (by decide)
      · decide
    · apply rdrop_ne_nil_of_mem _ _ 'B'
      · exact List.mem_append_left _ (by decide)
      · decide
  · apply substrOf_jsTrim _ _
      (hdrSeg.data ++ (IDENTITY_LOCK.data ++ (exagSeg.data ++ (exagP.data ++
        (styleSeg.data ++ (styleP.data ++ bgSeg.data))))))
      (techSeg.data ++ (TECHNICAL_BLOCK.data ++ endSeg.data))
    · simp [rawPrompt, strData_append, List.append_assoc]
    · apply dropWhile_ne_nil_of_mem _ _ 'T'
      · exact List.mem_append_left _ (by decide)
      · decide
    · apply rdrop_ne_nil_of_mem _ _ 'T'
      · exact List.mem_append_left _ (by decide)
      · decide

/-- Claim C8: for every combination of known style id, exaggeration tier
and background id, the prompt string returned by `buildPrompt` contains
the resolved style's text block and the resolved background's text block
verbatim as substrings. -/
theorem buildPrompt_contains_blocks (styleId exaggeration background : String)
    (st : StyleDef) (bgText : String)
    (hs : STYLES.lookup styleId = some st)
    (hb : BACKGROUNDS.lookup background = some bgText) :
    SubstrOf st.prompt (buildPrompt styleId exaggeration background).prompt ∧
    SubstrOf bgText (buildPrompt styleId exaggeration background).prompt := by
  have h1 : (buildPrompt styleId exaggeration background).prompt
      = jsTrim (rawPrompt st.prompt
          ((EXAGGERATION_LEVELS.lookup exaggeration).getD exagMediumText) bgText) := by
    simp [buildPrompt, hs, hb]
  rw [h1]
  exact rawPrompt_substrs st.prompt
    ((EXAGGERATION_LEVELS.lookup exaggeration).getD exagMediumText) bgText

/-- Witness for `buildPrompt_contains_blocks` at the known ids "S03",
"bold", "BG02". -/
theorem buildPrompt_contains_blocks_witness :
    SubstrOf styleS03.prompt (buildPrompt "S03" "bold" "BG02").prompt ∧
    SubstrOf "Warm peach to light orange gradient background."
      (buildPrompt "S03" "bold" "BG02").prompt :=
  buildPrompt_contains_blocks "S03" "bold" "BG02" styleS03
    "Warm peach to light orange gradient background." rfl rfl

/-! ## Dynamic cache-backed prompt builder (src/unnamed/part_000 lines 138-160)

This variant of `buildPrompt` resolves its blocks from the `promptCache`
and post-processes the composed prompt with
`.trim().replace(/\n+/g, ', ').replace(/,\s*,/g, ',')`: every maximal run
of newlines is rewritten to ", ", and then every (left-to-right,
non-overlapping) occurrence of a comma, optional whitespace and a second
comma is collapsed to a single comma. -/

/-- `.replace(/\n+/g, ', ')`: rewrite each maximal run of newlines to
", ".  The boolean flag records whether the scanner is inside a newline
run whose replacement has already been emitted. -/
def collapseNl : Bool → List Char → List Char
  | _, [] => []
  | inRun, c :: t =>
    if c = '\n' then
      if inRun then collapseNl true t
      else (", ".data) ++ collapseNl true t
    else c :: collapseNl false t

/-- `.replace(/,\s*,/g, ',')` on a fuel budget: at a comma, greedily skip
whitespace; if a second comma follows, emit a single comma and resume
after it, otherwise advance one character.  Each step consumes at least
one character, so fuel equal to the list length always suffices. -/
def collapseCommaPairsGo : Nat → List Char → List Char
  | 0, l => l
  | _, [] => []
  | fuel + 1, c :: t =>
    if c = ',' then
      match t.dropWhile wsChar with
      | ',' :: r => ',' :: collapseCommaPairsGo fuel r
      | _ => c :: collapseCommaPairsGo fuel t
    else c :: collapseCommaPairsGo fuel t

def collapseCommaPairs (l : List Char) : List Char :=
  collapseCommaPairsGo l.length l

/-- The dynamic variant's `fullPrompt` expression: fill the PhotoMaker
template, trim, then apply the two global replacements. -/
def dynFullPrompt (styleP exagP bgP technicalP : String) : String :=
  ⟨collapseCommaPairs (collapseNl false
    (jsTrim ("\nA portrait of a person img, " ++ styleP ++ "\n" ++ exagP ++ "\n"
      ++ bgP ++ "\n" ++ technicalP ++ "\n")).data)⟩

structure DynPromptResult where
  prompt : String
  negative_prompt : String
  style : StyleEntry
deriving DecidableEq, Repr

/-- `buildPrompt` from src/unnamed/part_000: each block falls back first
to a default cache entry, then to a literal object (whose undefined
fields are modelled as empty).  The handler also reads
`config["identity_lock"]` but never interpolates it into the template. -/
def buildPromptDyn (cache : PromptCache) (styleId exaggeration background : String) :
    DynPromptResult :=
  let style := ((cache.styles.lookup styleId).orElse
    (fun _ => cache.styles.lookup "S01")).getD ⟨"", "portrait", "", []⟩
  let exag := ((cache.exaggeration.lookup exaggeration).orElse
    (fun _ => cache.exaggeration.lookup "medium")).getD ⟨"", ""⟩
  let bg := ((cache.backgrounds.lookup background).orElse
    (fun _ => cache.backgrounds.lookup "BG01")).getD ⟨"", ""⟩
  let technical := jsOrStr (cache.config.lookup "technical") ""
  let negativePrompt := jsOrStr (cache.config.lookup "negative_prompt")
    "distorted face, bad anatomy, blurry"
  { prompt := dynFullPrompt style.prompt exag.prompt bg.prompt technical
    negative_prompt := negativePrompt
    style := style }

/-! ### Deciding the absence of a substring -/

theorem startsSeq_self_append (pat y : List Char) : startsSeq pat (pat ++ y) = true := by
  induction pat with
  | nil => rfl
  | cons a t ih => simp [startsSeq, Bool.and_eq_true, decide_eq_true_eq, ih]

theorem containsSeq_of_decomp (pat x y l : List Char) (h : x ++ pat ++ y = l) :
    containsSeq pat l = true := by
  induction x generalizing l with
  | nil =>
    simp only [List.nil_append] at h
    subst h
    cases hpy : pat ++ y with
    | nil =>
      have hp : pat = [] := by
        cases pat with
        | nil => rfl
        | cons a t => simp at hpy
      rw [hp]
      rfl
    | cons c t =>
      simp only [containsSeq]
      rw [← hpy, startsSeq_self_append, Bool.true_or]
  | cons a x' ih =>
    simp only [List.cons_append] at h
    subst h
    simp only [containsSeq]
    rw [ih (x' ++ pat ++ y) rfl, Bool.or_true]

theorem substrOf_implies_containsSeq (s t : String) (h : SubstrOf s t) :
    containsSeq s.data t.data = true := by
  obtain ⟨x, y, hxy⟩ := h
  exact containsSeq_of_decomp s.data x y t.data hxy

/-! ### Claim C8, the dynamic variant -/

/-- A concrete cache for the dynamic builder whose "S01" style block
contains a newline — the shape every static style block in this
repository has. -/
def cacheDyn : PromptCache :=
  { styles := [("S01", ⟨"Classic Street Caricature", "thick lines\nvibrant colours",
      "photomaker-style", []⟩)]
    exaggeration := [("medium", ⟨"Medium", "head 140 percent"⟩)]
    backgrounds := [("BG01", ⟨"Sky", "soft sky blue gradient"⟩)]
    config := []
    lastLoaded := none }

/-- Claim C8, counterexample: the claim covers the cache-backed
`buildPrompt` of src/unnamed/part_000 as well, and fails there.  With the
known ids "S01", "medium", "BG01" resolving to concrete cache entries,
the resolved style block "thick lines\nvibrant colours" does not occur
verbatim in the built prompt: the newline inside it has been rewritten to
", ". -/
theorem buildPromptDyn_not_verbatim :
    cacheDyn.styles.lookup "S01"
      = some ⟨"Classic Street Caricature", "thick lines\nvibrant colours",
          "photomaker-style", []⟩ ∧
    ¬ SubstrOf "thick lines\nvibrant colours"
        (buildPromptDyn cacheDyn "S01" "medium" "BG01").prompt := by
  refine ⟨rfl, ?_⟩
  intro h
  have hc := substrOf_implies_containsSeq _ _ h
  have hf : containsSeq ("thick lines\nvibrant colours").data
      (buildPromptDyn cacheDyn "S01" "medium" "BG01").prompt.data = false := by decide
  rw [hf] at hc
  exact Bool.false_ne_true hc

end Portrait
